import Mathlib

/-!
Shallow embedding of the task-consistency core of the `ronin` Eisenhower-matrix
todo application: the client-side state controller (`src/context/TodoContext.tsx`),
the REST mutation endpoints (`src/app/api/todos/route.ts`), the response helpers
(`src/types/api.ts`) and the caching API client (`src/lib/api.ts`).

Dates are modelled as epoch milliseconds (`Nat`); `Date.toISOString()` is
modelled by the injective rendering `isoString`.
-/

/-- Rendering of `new Date(n).toISOString()`: an injective encoding of the
epoch-millisecond clock value into a string. -/
def isoString (n : Nat) : String := "iso:" ++ toString n

/-- QuadrantKey from `src/types/todo.ts`: the five storage quadrants plus the
`finished` key that the type admits for compatibility. -/
inductive QuadrantKey where
  | inbox
  | urgentImportant
  | notUrgentImportant
  | urgentNotImportant
  | notUrgentNotImportant
  | finished
deriving DecidableEq, Repr

/-- Client-side Todo record from `src/types/todo.ts` (`createdAt : Date` as
epoch millis, `completedAt` an ISO string or null, `dueDate : Date | null`). -/
structure Todo where
  id : String
  text : String
  completed : Bool
  isWaiting : Bool
  createdAt : Nat
  completedAt : Option String
  quadrant : QuadrantKey
  dueDate : Option Nat
  note : Option String
  deleted : Option Bool
  order : Int
deriving DecidableEq, Repr

/-! The quadrant derivation `useQuadrants` (TodoContext.tsx lines 66-84):
start from empty buckets, and push every non-completed todo onto the bucket
named by its `quadrant` field, in flat-array order. -/

/-- One step of the `todos.forEach` loop in `useQuadrants`:
`if (!todo.completed) initialQuadrants[todo.quadrant].push(todo)`. -/
def pushActive (acc : QuadrantKey → List Todo) (t : Todo) : QuadrantKey → List Todo :=
  if !t.completed then
    fun q => if q == t.quadrant then acc q ++ [t] else acc q
  else acc

/-- Derivation of the per-quadrant view from the flat todo collection
(`useQuadrants` in TodoContext.tsx). -/
def useQuadrants (todos : List Todo) : QuadrantKey → List Todo :=
  todos.foldl pushActive (fun _ => [])

/-! Client-side mutations from TodoContext.tsx. Each returns the new local
todo list together with a flag recording whether the API call was issued;
the optimistic updater bodies are transcribed from the source. -/

/-- Construction of the optimistic `newTodo` in `addTodo` (TodoContext.tsx
lines 207-222): placeholder id, `order` = number of todos whose `quadrant`
field equals the target quadrant (completed ones included). -/
def newTodoFor (todos : List Todo) (text : String) (quadrant : QuadrantKey)
    (tempId : String) (now : Nat) : Todo :=
  { id := tempId
    text := text
    quadrant := quadrant
    completed := false
    isWaiting := false
    createdAt := now
    order := ((todos.filter (fun t => t.quadrant == quadrant)).length : Int)
    dueDate := none
    note := none
    completedAt := none
    deleted := none }

/-- Optimistic update of `deleteTodo` (TodoContext.tsx lines 311-321): if the
id is absent the function returns early with no API call; otherwise the todo
is filtered out with no renumbering of the survivors. -/
def deleteTodo (todos : List Todo) (id : String) : List Todo × Bool :=
  match todos.find? (fun t => t.id == id) with
  | none => (todos, false)
  | some _ => (todos.filter (fun t => !(t.id == id)), true)

/-- Optimistic update of `restoreTodo` (TodoContext.tsx lines 324-356):
`newOrder` counts the active todos currently holding the stored quadrant, the
todo is cleared of completion data and appended after that quadrant's actives. -/
def restoreTodo (todos : List Todo) (id : String) : List Todo × Bool :=
  match todos.find? (fun t => t.id == id) with
  | none => (todos, false)
  | some todo =>
    let newOrder : Int :=
      ((todos.filter (fun t => t.quadrant == todo.quadrant && !t.completed)).length : Int)
    let filtered := todos.filter (fun t => !(t.id == id))
    let quadrantTodos := filtered.filter (fun t => t.quadrant == todo.quadrant && !t.completed)
    let others := filtered.filter (fun t => !(t.quadrant == todo.quadrant) || t.completed)
    let restoredTodo : Todo :=
      { todo with deleted := some false, completed := false, completedAt := none, order := newOrder }
    (others ++ quadrantTodos ++ [restoredTodo], true)

/-- Optimistic update of `toggleTodo` (TodoContext.tsx lines 359-384). -/
def toggleTodo (todos : List Todo) (id : String) (now : Nat) : List Todo × Bool :=
  match todos.find? (fun t => t.id == id) with
  | none => (todos, false)
  | some todo =>
    let isCompleting := !todo.completed
    let completedAt := if isCompleting then some (isoString now) else none
    (todos.map (fun t =>
      if t.id == id then { t with completed := isCompleting, completedAt := completedAt } else t),
     true)

/-- Optimistic update of `toggleWaiting` (TodoContext.tsx lines 387-408). -/
def toggleWaiting (todos : List Todo) (id : String) : List Todo × Bool :=
  match todos.find? (fun t => t.id == id) with
  | none => (todos, false)
  | some _ =>
    (todos.map (fun t => if t.id == id then { t with isWaiting := !t.isWaiting } else t), true)

/-- Optimistic update of `updateTodoText` (TodoContext.tsx lines 411-433):
returns early on whitespace-only text and on a missing id. -/
def updateTodoText (todos : List Todo) (id : String) (text : String) : List Todo × Bool :=
  if text.trim.isEmpty then (todos, false)
  else
    match todos.find? (fun t => t.id == id) with
    | none => (todos, false)
    | some _ =>
      (todos.map (fun t => if t.id == id then { t with text := text } else t), true)

/-- Optimistic update of `updateTodoDueDate` (TodoContext.tsx lines 436-457). -/
def updateTodoDueDate (todos : List Todo) (id : String) (date : Option Nat) : List Todo × Bool :=
  match todos.find? (fun t => t.id == id) with
  | none => (todos, false)
  | some _ =>
    (todos.map (fun t => if t.id == id then { t with dueDate := date } else t), true)

/-- Optimistic update of `updateTodoNote` (TodoContext.tsx lines 460-481). -/
def updateTodoNote (todos : List Todo) (id : String) (note : Option String) : List Todo × Bool :=
  match todos.find? (fun t => t.id == id) with
  | none => (todos, false)
  | some _ =>
    (todos.map (fun t => if t.id == id then { t with note := note } else t), true)

/-- Optimistic update of `reorderTodo` (TodoContext.tsx lines 505-518). -/
def reorderTodo (todos : List Todo) (id : String) (newOrder : Int) : List Todo × Bool :=
  match todos.find? (fun t => t.id == id) with
  | none => (todos, false)
  | some _ =>
    (todos.map (fun t => if t.id == id then { t with order := newOrder } else t), true)

/-- Optimistic update of `moveTodo` (TodoContext.tsx lines 484-502): the todo
is appended after the destination quadrant's members with only its `quadrant`
field rewritten; neither quadrant is renumbered. -/
def moveTodo (todos : List Todo) (todo : Todo) (toQuadrant : QuadrantKey) : List Todo :=
  let filtered := todos.filter (fun t => !(t.id == todo.id))
  let quadrantTodos := filtered.filter (fun t => t.quadrant == toQuadrant)
  let others := filtered.filter (fun t => !(t.quadrant == toQuadrant))
  others ++ quadrantTodos ++ [{ todo with quadrant := toQuadrant }]

/-- Optimistic update of `reorderTodosInQuadrant` (TodoContext.tsx lines
521-546): every local todo appearing in the supplied list takes the order
recorded there. -/
def reorderTodosInQuadrant (prev : List Todo) (updates : List Todo) : List Todo :=
  prev.map (fun t =>
    match updates.find? (fun u => u.id == t.id) with
    | some u => { t with order := u.order }
    | none => t)

/-! JSON values, used to model the serialized bodies the API endpoints emit
and the client parses back. -/

/-- JSON value tree (the serialization layer between the route handlers of
`src/app/api/todos/route.ts` and the client of `src/lib/api.ts`). -/
inductive Json where
  | null
  | bool (b : Bool)
  | str (s : String)
  | num (n : Int)
  | arr (xs : List Json)
  | obj (fields : List (String × Json))

/-- Field lookup on a serialized JSON object, as JavaScript property access on
the parsed body: absent keys and non-objects read as undefined (`none`). -/
def jsonLookup (j : Json) (k : String) : Option Json :=
  match j with
  | .obj fields => (fields.find? (fun p => p.1 == k)).map (fun p => p.2)
  | _ => none

/-! Server-side model: the persisted Prisma `Todo` row and the
`/api/todos` route handlers of `src/app/api/todos/route.ts`.  Database calls
are external, so each handler takes the database outcome as an `Except`
argument and computes the response body (a `Json`) and HTTP status. -/

/-- Persisted Todo row (Prisma model): dates are `DateTime` values
(epoch millis), `quadrant` a plain string column. -/
structure StoredTodo where
  id : String
  text : String
  completed : Bool
  isWaiting : Bool
  createdAt : Nat
  completedAt : Option Nat
  dueDate : Option Nat
  note : Option String
  quadrant : String
  deleted : Option Bool
  order : Int
deriving DecidableEq, Repr

/-- transformPrismaTodo (route.ts lines 17-24): spreads the row and renders
the three date fields as ISO strings (or null). -/
def transformPrismaTodo (t : StoredTodo) : Json :=
  .obj
    [("id", .str t.id),
     ("text", .str t.text),
     ("completed", .bool t.completed),
     ("isWaiting", .bool t.isWaiting),
     ("quadrant", .str t.quadrant),
     ("note", match t.note with | some s => .str s | none => .null),
     ("deleted", match t.deleted with | some b => .bool b | none => .null),
     ("order", .num t.order),
     ("createdAt", .str (isoString t.createdAt)),
     ("dueDate", match t.dueDate with | some d => .str (isoString d) | none => .null),
     ("completedAt", match t.completedAt with | some d => .str (isoString d) | none => .null)]

/-- createApiResponse (`src/types/api.ts` lines 35-37) composed with JSON
serialization: an undefined payload key is dropped by `JSON.stringify`, so a
`none` payload serializes to the empty object. -/
def createApiResponse (d : Option Json) : Json :=
  .obj (match d with | some v => [("data", v)] | none => [])

/-- createApiError (`src/types/api.ts` lines 39-47) composed with JSON
serialization: an undefined `details` key is dropped. -/
def createApiError (code message : String) (details : Option Json) : Json :=
  .obj
    [("error", .obj
      (("code", .str code) :: ("message", .str message) ::
        (match details with | some d => [("details", d)] | none => [])))]

/-- GET /api/todos (route.ts lines 44-57): wraps the transformed rows with
`createApiResponse`, or emits a DATABASE_ERROR error body. -/
def GEThandler (db : Except String (List StoredTodo)) : Json × Nat :=
  match db with
  | .ok todos => (createApiResponse (some (.arr (todos.map transformPrismaTodo))), 200)
  | .error e => (createApiError "DATABASE_ERROR" "Failed to fetch todos" (some (.str e)), 500)

/-- POST /api/todos (route.ts lines 65-90): on success the response body is
`jsonResponse(transformPrismaTodo(todo))`, the bare transformed row with no
`createApiResponse` wrapping. -/
def POSThandler (db : Except String StoredTodo) : Json × Nat :=
  match db with
  | .ok todo => (transformPrismaTodo todo, 200)
  | .error e => (createApiError "DATABASE_ERROR" "Failed to create todo" (some (.str e)), 500)

/-- PUT /api/todos success and failure response bodies (route.ts lines
99-137): like POST, the success body is the bare transformed row. -/
def PUThandler (db : Except String StoredTodo) : Json × Nat :=
  match db with
  | .ok todo => (transformPrismaTodo todo, 200)
  | .error e => (createApiError "DATABASE_ERROR" "Failed to update todo" (some (.str e)), 500)

/-- DELETE /api/todos (route.ts lines 144-165): missing id is a 400
VALIDATION_ERROR; success passes `undefined` to `createApiResponse`. -/
def DELETEhandler (id : Option String) (db : Except String Unit) : Json × Nat :=
  match id with
  | none => (createApiError "VALIDATION_ERROR" "Todo ID is required" none, 400)
  | some _ =>
    match db with
    | .ok _ => (createApiResponse none, 200)
    | .error e => (createApiError "DATABASE_ERROR" "Failed to delete todo" (some (.str e)), 500)

/-! The stored-row effect of the PUT endpoint (route.ts lines 101-127): the
handler copies every defined body field into `updateData` and hands it to
`prisma.todo.update`, which rewrites exactly the supplied columns.  Setting
`completed` always rewrites `completedAt`: to the current server time when
true, to null when false. -/

/-- Body of a PUT request: `none` is an undefined (absent) field.  The inner
`Option` of `dueDate`, `note` and `deleted` distinguishes null from a value. -/
structure UpdateBody where
  id : String
  text : Option String := none
  completed : Option Bool := none
  isWaiting : Option Bool := none
  dueDate : Option (Option Nat) := none
  note : Option (Option String) := none
  quadrant : Option String := none
  deleted : Option (Option Bool) := none
  order : Option Int := none
deriving DecidableEq, Repr

/-- Effect of the PUT endpoint on the matched stored row: defined body fields
overwrite the row's columns; `completed` additionally stamps or clears
`completedAt` (`new Date()` is the current time `now`). -/
def applyPut (t : StoredTodo) (b : UpdateBody) (now : Nat) : StoredTodo :=
  { t with
    text := b.text.getD t.text
    completed := b.completed.getD t.completed
    completedAt :=
      match b.completed with
      | some c => if c then some now else none
      | none => t.completedAt
    isWaiting := b.isWaiting.getD t.isWaiting
    dueDate := b.dueDate.getD t.dueDate
    note := b.note.getD t.note
    quadrant := b.quadrant.getD t.quadrant
    deleted := b.deleted.getD t.deleted
    order := b.order.getD t.order }

/-! Client response handling: the parsed response body read through the
`ApiResponse` type (`src/types/api.ts` lines 1-8), and the optimistic update
wrapper `performOptimisticUpdate` (TodoContext.tsx lines 178-204). -/

/-- View of a parsed response body through `ApiResponse<T>`: the `data` and
`error` properties of the JSON object (undefined when absent). -/
structure ClientResponse where
  data : Option Json
  error : Option Json

/-- Reading of the route's serialized body on the client:
`response.json()` typed as `ApiResponse`. -/
def parseClientResponse (j : Json) : ClientResponse :=
  { data := jsonLookup j "data", error := jsonLookup j "error" }

/-- performOptimisticUpdate (TodoContext.tsx lines 178-204): apply the
optimistic updater, then throw into `handleApiError` when `response.error` is
set (which logs and replaces state with a copy of itself), otherwise run the
success handler only when `response.data` is set.  The boolean records
whether `handleApiError` logged an error. -/
def performOptimisticUpdate (prev : List Todo) (updater : List Todo → List Todo)
    (resp : ClientResponse) (onSuccess : Option (Json → List Todo → List Todo)) :
    List Todo × Bool :=
  let st := updater prev
  match resp.error with
  | some _ => (st, true)
  | none =>
    match onSuccess, resp.data with
    | some f, some d => (f d st, false)
    | _, _ => (st, false)

/-- Reading of a todo out of a parsed JSON body, modelling the client's
type-cast of `response.data` to `Todo`; missing or ill-typed fields read as
defaults, as a cast performs no validation. -/
def todoFromJson (j : Json) : Todo :=
  { id := match jsonLookup j "id" with | some (.str s) => s | _ => ""
    text := match jsonLookup j "text" with | some (.str s) => s | _ => ""
    completed := match jsonLookup j "completed" with | some (.bool b) => b | _ => false
    isWaiting := match jsonLookup j "isWaiting" with | some (.bool b) => b | _ => false
    createdAt := 0
    completedAt := match jsonLookup j "completedAt" with | some (.str s) => some s | _ => none
    quadrant := .inbox
    dueDate := none
    note := match jsonLookup j "note" with | some (.str s) => some s | _ => none
    deleted := match jsonLookup j "deleted" with | some (.bool b) => some b | _ => none
    order := match jsonLookup j "order" with | some (.num n) => n | _ => 0 }

/-- End-to-end `addTodo` flow (TodoContext.tsx lines 207-244 composed with
the POST route): optimistic append of the placeholder todo, POST to the
server, then the success handler that maps every todo whose id equals the
placeholder id to the received `data`. -/
def addTodoFlow (todos : List Todo) (text : String) (quadrant : QuadrantKey)
    (tempId : String) (now : Nat) (db : Except String StoredTodo) : List Todo × Bool :=
  let nt := newTodoFor todos text quadrant tempId now
  let resp := parseClientResponse (POSThandler db).1
  performOptimisticUpdate todos (fun prev => prev ++ [nt]) resp
    (some (fun d st => st.map (fun t => if t.id == tempId then todoFromJson d else t)))

/-! The caching API client of `src/lib/api.ts`.  `fetch` is external, so its
outcome is an argument; the request options object is carried already
serialized (the string `JSON.stringify(options)` would produce). -/

/-- CACHE_DURATION (api.ts line 5): five minutes in milliseconds. -/
def CACHE_DURATION : Nat := 5 * 60 * 1000

/-- Entry of the ApiClient cache map (api.ts lines 7-10). -/
structure CacheEntry where
  data : Json
  timestamp : Nat

/-- Cache map of ApiClient, keyed by the cache-key string. -/
abbrev Cache := List (String × CacheEntry)

/-- cacheKey construction (api.ts line 19): the URL concatenated with the
serialized request options. -/
def cacheKey (url options : String) : String := url ++ "-" ++ options

/-- Map lookup `this.cache.get(cacheKey)`. -/
def lookupCache (c : Cache) (k : String) : Option CacheEntry :=
  (c.find? (fun p => p.1 == k)).map (fun p => p.2)

/-- Map update `this.cache.set(cacheKey, entry)`: replaces any entry under
the same key. -/
def cacheSet (c : Cache) (k : String) (e : CacheEntry) : Cache :=
  (k, e) :: c.filter (fun p => !(p.1 == k))

/-- Outcome of the external `fetch` call as fetchWithCache discriminates it:
an ok JSON response with parsed body, a non-2xx status, an ok response with a
non-JSON content type, or a thrown network error. -/
inductive NetResult where
  | ok (body : Json)
  | notOk (status : Nat) (statusText : String) (text : String)
  | notJson (contentType : Option String) (text : String)
  | netError (msg : String)

/-- Result of one fetchWithCache call: the value returned to the caller, the
cache afterwards, and whether the network was actually hit. -/
structure FetchOutcome where
  resp : Json
  cache : Cache
  fetched : Bool

/-- Network half of fetchWithCache (api.ts lines 26-73): non-2xx and
non-JSON responses and thrown errors produce an INTERNAL_ERROR value without
caching; a parsed JSON body is stored in the cache and returned. -/
def fetchNetwork (cache : Cache) (key : String) (now : Nat) (net : NetResult) : FetchOutcome :=
  match net with
  | .ok body => ⟨body, cacheSet cache key ⟨body, now⟩, true⟩
  | .notOk status statusText text =>
      ⟨createApiError "INTERNAL_ERROR"
        ("Server returned " ++ toString status ++ ": " ++ statusText) (some (.str text)),
       cache, true⟩
  | .notJson contentType text =>
      ⟨createApiError "INTERNAL_ERROR" "Invalid response format"
        (some (.obj
          [("contentType", match contentType with | some s => .str s | none => .null),
           ("body", .str text)])),
       cache, true⟩
  | .netError msg =>
      ⟨createApiError "INTERNAL_ERROR" msg (some (.str msg)), cache, true⟩

/-- fetchWithCache (api.ts lines 15-74): any cache entry under the same
URL-plus-options key younger than CACHE_DURATION is returned as-is with no
fetch; otherwise the network is consulted.  No HTTP method is exempted. -/
def fetchWithCache (cache : Cache) (now : Nat) (url options : String)
    (net : NetResult) : FetchOutcome :=
  let key := cacheKey url options
  match lookupCache cache key with
  | some cached =>
      if (now : Int) - (cached.timestamp : Int) < (CACHE_DURATION : Int) then
        ⟨cached.data, cache, false⟩
      else fetchNetwork cache key now net
  | none => fetchNetwork cache key now net

/-- Serialized RequestInit of `createTodo` (api.ts lines 88-94): method POST
with the serialized todo as body, rendered injectively. -/
def postOptions (body : String) : String := "method=POST;body=" ++ body

/-- createTodo (api.ts lines 88-94): a POST through fetchWithCache. -/
def createTodoCall (cache : Cache) (now : Nat) (body : String) (net : NetResult) : FetchOutcome :=
  fetchWithCache cache now "/api/todos" (postOptions body) net

/-! Auxiliary predicates used to state the claims. -/

/-- Fixed error-code set named by the spec: validation, not-found,
database/storage, internal. -/
def specErrorCodes : List String :=
  ["VALIDATION_ERROR", "NOT_FOUND", "DATABASE_ERROR", "INTERNAL_ERROR"]

/-- Success shape of the spec: a JSON object that is exactly a single `data`
field wrapping the payload. -/
def isSuccessShapeB : Json → Bool
  | .obj [(k, _)] => k == "data"
  | _ => false

/-- Error shape of the spec: exactly one `error` field holding an object
with `code` (drawn from the fixed set), `message`, and an optional
`details`. -/
def isErrorShapeB : Json → Bool
  | .obj [(k, .obj ((k1, .str c) :: (k2, .str _) :: rest))] =>
      k == "error" && k1 == "code" && k2 == "message" &&
      specErrorCodes.contains c &&
      (match rest with
       | [] => true
       | [(k3, _)] => k3 == "details"
       | _ => false)
  | _ => false

/-- Density check for a quadrant's active ordering: the multiset of `order`
values of the active todos in quadrant `q` is exactly 0, 1, ..., n-1. -/
def denseOrders (todos : List Todo) (q : QuadrantKey) : Bool :=
  let orders := (useQuadrants todos q).map (fun t => t.order)
  (List.range orders.length).all (fun i => orders.count ((i : Nat) : Int) == 1)

/-- Ascending-by-`order` check on a todo list. -/
def sortedByOrder : List Todo → Bool
  | [] => true
  | [_] => true
  | a :: b :: rest => decide (a.order ≤ b.order) && sortedByOrder (b :: rest)

/-- Concrete client-side todo fixture. -/
def mkTodo (id : String) (q : QuadrantKey) (ord : Int) (completed : Bool) : Todo :=
  { id := id
    text := "task"
    completed := completed
    isWaiting := false
    createdAt := 0
    completedAt := if completed then some (isoString 0) else none
    quadrant := q
    dueDate := none
    note := none
    deleted := none
    order := ord }

/-- Concrete stored-row fixture. -/
def sampleStored : StoredTodo :=
  { id := "srv-1"
    text := "a"
    completed := false
    isWaiting := false
    createdAt := 5
    completedAt := none
    dueDate := none
    note := none
    quadrant := "inbox"
    deleted := none
    order := 0 }

/-- Concrete PUT body marking a task completed (text and the other fields
undefined). -/
def completingBody : UpdateBody := { id := "srv-1", completed := some true }

/-- Concrete PUT body marking a task completed, used to instantiate C6. -/
def completeTrueBody : UpdateBody := { id := "srv-1", completed := some true }

/-- Concrete PUT body editing only the text. -/
def noteBody : UpdateBody := { id := "srv-1", text := some "b" }

/-- Absorption of a repeated `getD` through the same optional value. -/
theorem getD_absorb {α : Type} (o : Option α) (x : α) : o.getD (o.getD x) = o.getD x := by
  cases o <;> rfl

/-! Characterization of the quadrant derivation as a filter of the flat
collection. -/

theorem useQuadrants_foldl (todos : List Todo) (acc : QuadrantKey → List Todo) (q : QuadrantKey) :
    (todos.foldl pushActive acc) q =
      acc q ++ todos.filter (fun t => !t.completed && t.quadrant == q) := by
  induction todos generalizing acc with
  | nil => simp
  | cons t ts ih =>
    rw [List.foldl_cons, List.filter_cons, ih]
    by_cases hc : t.completed
    · simp [pushActive, hc]
    · by_cases hq : t.quadrant = q
      · simp [pushActive, hc, hq]
      · simp [pushActive, hc, hq, Ne.symm hq]

theorem useQuadrants_eq_filter (todos : List Todo) (q : QuadrantKey) :
    useQuadrants todos q = todos.filter (fun t => !t.completed && t.quadrant == q) := by
  unfold useQuadrants
  rw [useQuadrants_foldl]
  simp

/-! Claim theorems. -/

/-- C1: the claim says add/move/reorder/delete confined to a quadrant keep
the active `order` values dense (exactly 0..n-1).  The code violates it:
`deleteTodo` filters the todo out without renumbering the survivors, so from
the dense state inbox = [t1 at 0, t2 at 1], deleting t1 leaves the single
active inbox todo holding order 1 instead of 0. -/
theorem C1_delete_does_not_renumber :
    denseOrders [mkTodo "t1" .inbox 0 false, mkTodo "t2" .inbox 1 false] .inbox = true ∧
    (deleteTodo [mkTodo "t1" .inbox 0 false, mkTodo "t2" .inbox 1 false] "t1").2 = true ∧
    denseOrders (deleteTodo [mkTodo "t1" .inbox 0 false, mkTodo "t2" .inbox 1 false] "t1").1
      .inbox = false := by
  decide

/-- C2 counterexample: `useQuadrants` does not sort a partition ascending by
`order`; with a flat collection holding inbox todos at orders 1 then 0, the
inbox partition comes out in flat-array order [1, 0]. -/
theorem C2_counterexample_not_sorted :
    sortedByOrder
      (useQuadrants [mkTodo "a" .inbox 1 false, mkTodo "b" .inbox 0 false] .inbox) = false := by
  decide

/-- C2 (amended): the derive-quadrants operation is a pure function of the
flat task collection that places each non-completed task in exactly the
partition named by its `quadrant` field, preserving the flat collection's
relative order; no sorting by the `order` field is applied, so each partition
equals the filter of the flat list on active membership in that quadrant. -/
theorem C2_partition_is_filter :
    ∀ (todos : List Todo) (q : QuadrantKey),
      useQuadrants todos q = todos.filter (fun t => !t.completed && t.quadrant == q) :=
  useQuadrants_eq_filter

/-- C3: the claim says every endpoint responds with the `data` wrap on
success or the coded `error` shape, POST and PUT included.  Evaluating the
handlers: the POST and PUT success bodies are the bare transformed row
(neither shape), while GET success and the error paths do follow the
spec shapes. -/
theorem C3_post_put_success_not_wrapped :
    isSuccessShapeB (POSThandler (.ok sampleStored)).1 = false ∧
    isErrorShapeB (POSThandler (.ok sampleStored)).1 = false ∧
    isSuccessShapeB (PUThandler (.ok sampleStored)).1 = false ∧
    isErrorShapeB (PUThandler (.ok sampleStored)).1 = false ∧
    isSuccessShapeB (GEThandler (.ok [sampleStored])).1 = true ∧
    isErrorShapeB (POSThandler (.error "db down")).1 = true ∧
    isErrorShapeB (GEThandler (.error "db down")).1 = true ∧
    isErrorShapeB (DELETEhandler none (.ok ())).1 = true := by
  decide

/-- C4: the claim says a successful create replaces every reference to the
placeholder id with the server task.  Evaluating the composed flow: the POST
success body is unwrapped, so `response.data` is undefined, the success
handler never runs, and the placeholder id survives (the flag records that
no error was logged, i.e. the call was treated as successful). -/
theorem C4_placeholder_never_replaced :
    ((addTodoFlow [] "a" .inbox "temp-1" 0 (.ok sampleStored)).1).map (fun t => t.id) =
      ["temp-1"] ∧
    (addTodoFlow [] "a" .inbox "temp-1" 0 (.ok sampleStored)).2 = false := by
  decide

/-- C5 counterexample: updating with `completed = true` twice at server
times 100 and 200 re-stamps `completedAt`, so the stored row after the second
application differs from the row after the first. -/
theorem C5_counterexample_completedAt_restamped :
    applyPut (applyPut sampleStored completingBody 100) completingBody 200 ≠
      applyPut sampleStored completingBody 100 := by
  decide

/-- C5 (amended): the update operation is idempotent for every body that
does not set `completed` to true; when the body sets `completed = true` the
server overwrites `completedAt` with the current time on every application,
so applying twice agrees with applying once only when both applications
carry the same server timestamp. -/
theorem C5_update_idempotent_unless_completing (t : StoredTodo) (b : UpdateBody)
    (n1 n2 : Nat) (h : b.completed ≠ some true ∨ n1 = n2) :
    applyPut (applyPut t b n1) b n2 = applyPut t b n1 := by
  rcases t with ⟨tid, ttext, tcompleted, tisWaiting, tcreatedAt, tcompletedAt,
    tdueDate, tnote, tquadrant, tdeleted, torder⟩
  rcases hb : b.completed with _ | c
  · simp [applyPut, hb, getD_absorb]
  · rcases c with _ | _
    · simp [applyPut, hb, getD_absorb]
    · rcases h with h | h
      · exact absurd hb h
      · subst h
        simp [applyPut, hb, getD_absorb]

/-- C5 witness: a text-only update body applied twice equals applying it
once. -/
theorem C5_witness :
    applyPut (applyPut sampleStored noteBody 100) noteBody 200 =
      applyPut sampleStored noteBody 100 :=
  C5_update_idempotent_unless_completing sampleStored noteBody 100 200 (Or.inl (by decide))

/-- C6: a PUT body defining `completed` makes the server set `completedAt`
to the current timestamp when completing and to null when un-completing, so
the stored row afterwards satisfies the completed/completedAt invariant. -/
theorem C6_completed_sets_completedAt (t : StoredTodo) (b : UpdateBody) (now : Nat)
    (c : Bool) (h : b.completed = some c) :
    (applyPut t b now).completed = c ∧
    (c = true → (applyPut t b now).completedAt = some now) ∧
    (c = false → (applyPut t b now).completedAt = none) := by
  rcases c <;> simp [applyPut, h]

/-- C6 witness: completing the sample row at time 7 stores timestamp 7. -/
theorem C6_witness :
    (applyPut sampleStored completeTrueBody 7).completed = true ∧
    (true = true → (applyPut sampleStored completeTrueBody 7).completedAt = some 7) ∧
    (true = false → (applyPut sampleStored completeTrueBody 7).completedAt = none) :=
  C6_completed_sets_completedAt sampleStored completeTrueBody 7 true rfl

/-- C7: restoring a finished task clears `completed` and `completedAt`,
keeps the quadrant the task held at completion time, and appends it at the
end of that quadrant's active ordering, its new `order` being the number of
active tasks already in that quadrant. -/
theorem C7_restore_appends_to_stored_quadrant
    (todos : List Todo) (id : String) (todo : Todo)
    (hfind : todos.find? (fun t => t.id == id) = some todo)
    (hcomp : todo.completed = true)
    (huniq : ∀ t ∈ todos, t.id = id → t = todo) :
    useQuadrants (restoreTodo todos id).1 todo.quadrant =
      useQuadrants todos todo.quadrant ++
        [{ todo with
            deleted := some false, completed := false, completedAt := none,
            order := ((useQuadrants todos todo.quadrant).length : Int) }] := by
  have hcomm : todos.filter (fun t => t.quadrant == todo.quadrant && !t.completed) =
      todos.filter (fun t => !t.completed && t.quadrant == todo.quadrant) :=
    List.filter_congr (fun t _ => Bool.and_comm _ _)
  have h_others : ((todos.filter (fun t => !(t.id == id))).filter
      (fun t => !(t.quadrant == todo.quadrant) || t.completed)).filter
      (fun t => !t.completed && t.quadrant == todo.quadrant) = [] := by
    rw [List.filter_eq_nil_iff]
    intro a ha
    rw [List.mem_filter] at ha
    have h2 := ha.2
    cases hac : a.completed <;> simp_all
  have h_quad : ((todos.filter (fun t => !(t.id == id))).filter
      (fun t => t.quadrant == todo.quadrant && !t.completed)).filter
      (fun t => !t.completed && t.quadrant == todo.quadrant) =
      (todos.filter (fun t => !(t.id == id))).filter
      (fun t => t.quadrant == todo.quadrant && !t.completed) := by
    rw [List.filter_eq_self]
    intro a ha
    rw [List.mem_filter] at ha
    rw [Bool.and_comm]
    exact ha.2
  have h_q_eq : (todos.filter (fun t => !(t.id == id))).filter
      (fun t => t.quadrant == todo.quadrant && !t.completed) =
      todos.filter (fun t => !t.completed && t.quadrant == todo.quadrant) := by
    rw [List.filter_filter]
    apply List.filter_congr
    intro a ha
    by_cases hid : a.id = id
    · have hae : a = todo := huniq a ha hid
      subst hae
      simp [hcomp]
    · simp [hid, Bool.and_comm]
  simp only [useQuadrants_eq_filter, restoreTodo, hfind]
  simp only [List.filter_append, h_others, h_quad, h_q_eq, List.nil_append]
  rw [hcomm]
  simp [hcomp]

/-- C7 witness: with one active inbox task and one finished inbox task,
restoring the finished one appends it to the inbox actives at order 1. -/
theorem C7_witness :
    useQuadrants
        (restoreTodo [mkTodo "a1" .inbox 0 false, mkTodo "d1" .inbox 5 true] "d1").1
        (mkTodo "d1" .inbox 5 true).quadrant =
      useQuadrants [mkTodo "a1" .inbox 0 false, mkTodo "d1" .inbox 5 true]
          (mkTodo "d1" .inbox 5 true).quadrant ++
        [{ mkTodo "d1" .inbox 5 true with
            deleted := some false, completed := false, completedAt := none,
            order := ((useQuadrants [mkTodo "a1" .inbox 0 false, mkTodo "d1" .inbox 5 true]
              (mkTodo "d1" .inbox 5 true).quadrant).length : Int) }] :=
  C7_restore_appends_to_stored_quadrant
    [mkTodo "a1" .inbox 0 false, mkTodo "d1" .inbox 5 true] "d1" (mkTodo "d1" .inbox 5 true)
    (by decide) (by decide) (by decide)

/-- C8: a mutating operation whose API call fails logs the error and keeps
the optimistic local state exactly as the optimistic updater produced it; no
rollback to the pre-mutation snapshot occurs. -/
theorem C8_failure_keeps_optimistic_state (prev : List Todo)
    (updater : List Todo → List Todo) (resp : ClientResponse)
    (onSuccess : Option (Json → List Todo → List Todo)) (e : Json)
    (h : resp.error = some e) :
    performOptimisticUpdate prev updater resp onSuccess = (updater prev, true) := by
  simp [performOptimisticUpdate, h]

/-- C8 witness: an optimistic append followed by an error response leaves
the appended todo in state and logs the error. -/
theorem C8_witness :
    performOptimisticUpdate [] (fun prev => prev ++ [mkTodo "x" .inbox 0 false])
      ⟨none, some (.str "boom")⟩ none = ([mkTodo "x" .inbox 0 false], true) :=
  C8_failure_keeps_optimistic_state [] (fun prev => prev ++ [mkTodo "x" .inbox 0 false])
    ⟨none, some (.str "boom")⟩ none (.str "boom") rfl

/-- C9: fetchWithCache caches the parsed body of every successful response,
mutations included, keyed on the URL plus the serialized request options;
a second call with the same URL and options within CACHE_DURATION (five
minutes) returns the cached body unchanged and performs no network fetch,
whatever the network would have answered. -/
theorem C9_cache_serves_repeated_mutations (cache : Cache) (now now2 : Nat)
    (url options : String) (body : Json) (net2 : NetResult)
    (h0 : lookupCache cache (cacheKey url options) = none)
    (h1 : (now2 : Int) - (now : Int) < (CACHE_DURATION : Int)) :
    (fetchWithCache cache now url options (.ok body)).fetched = true ∧
    fetchWithCache (fetchWithCache cache now url options (.ok body)).cache
        now2 url options net2 =
      ⟨body, (fetchWithCache cache now url options (.ok body)).cache, false⟩ := by
  have hfirst : fetchWithCache cache now url options (.ok body) =
      ⟨body, cacheSet cache (cacheKey url options) ⟨body, now⟩, true⟩ := by
    simp [fetchWithCache, h0, fetchNetwork]
  constructor
  · rw [hfirst]
  · rw [hfirst]
    have hlook : lookupCache (cacheSet cache (cacheKey url options) ⟨body, now⟩)
        (cacheKey url options) = some ⟨body, now⟩ := by
      simp [lookupCache, cacheSet]
    simp [fetchWithCache, hlook, h1]

/-- C9 witness: a POST through the client at time 0 followed by the same
POST at time 1000 is served from the cache even though the network is down. -/
theorem C9_witness :
    (fetchWithCache [] 0 "/api/todos" (postOptions "todoA") (.ok (.str "created"))).fetched
      = true ∧
    fetchWithCache
        (fetchWithCache [] 0 "/api/todos" (postOptions "todoA") (.ok (.str "created"))).cache
        1000 "/api/todos" (postOptions "todoA") (.netError "down") =
      ⟨.str "created",
       (fetchWithCache [] 0 "/api/todos" (postOptions "todoA") (.ok (.str "created"))).cache,
       false⟩ :=
  C9_cache_serves_repeated_mutations [] 0 1000 "/api/todos" (postOptions "todoA")
    (.str "created") (.netError "down") rfl (by decide)

/-- C10: every client mutation that takes a task id (toggle completion,
toggle waiting, delete, restore, edit text/due date/note, reorder single
task) is a complete no-op when no task with that id exists: the local list
is unchanged and no API call is issued. -/
theorem C10_missing_id_is_noop (todos : List Todo) (id : String) (now : Nat)
    (text : String) (d : Option Nat) (note : Option String) (o : Int)
    (h : todos.find? (fun t => t.id == id) = none) :
    toggleTodo todos id now = (todos, false) ∧
    toggleWaiting todos id = (todos, false) ∧
    deleteTodo todos id = (todos, false) ∧
    restoreTodo todos id = (todos, false) ∧
    updateTodoText todos id text = (todos, false) ∧
    updateTodoDueDate todos id d = (todos, false) ∧
    updateTodoNote todos id note = (todos, false) ∧
    reorderTodo todos id o = (todos, false) := by
  refine ⟨?_, ?_, ?_, ?_, ?_, ?_, ?_, ?_⟩ <;>
    simp [toggleTodo, toggleWaiting, deleteTodo, restoreTodo, updateTodoText,
      updateTodoDueDate, updateTodoNote, reorderTodo, h]

/-- C10 witness: every id-taking mutation applied with an unknown id leaves
the concrete one-task state untouched and issues no API call. -/
theorem C10_witness :
    toggleTodo [mkTodo "a1" .inbox 0 false] "zzz" 3 = ([mkTodo "a1" .inbox 0 false], false) ∧
    toggleWaiting [mkTodo "a1" .inbox 0 false] "zzz" = ([mkTodo "a1" .inbox 0 false], false) ∧
    deleteTodo [mkTodo "a1" .inbox 0 false] "zzz" = ([mkTodo "a1" .inbox 0 false], false) ∧
    restoreTodo [mkTodo "a1" .inbox 0 false] "zzz" = ([mkTodo "a1" .inbox 0 false], false) ∧
    updateTodoText [mkTodo "a1" .inbox 0 false] "zzz" "hello" =
      ([mkTodo "a1" .inbox 0 false], false) ∧
    updateTodoDueDate [mkTodo "a1" .inbox 0 false] "zzz" none =
      ([mkTodo "a1" .inbox 0 false], false) ∧
    updateTodoNote [mkTodo "a1" .inbox 0 false] "zzz" none =
      ([mkTodo "a1" .inbox 0 false], false) ∧
    reorderTodo [mkTodo "a1" .inbox 0 false] "zzz" 2 =
      ([mkTodo "a1" .inbox 0 false], false) :=
  C10_missing_id_is_noop [mkTodo "a1" .inbox 0 false] "zzz" 3 "hello" none none 2 (by decide)
